import Mathlib

/-!
Shallow embedding of `src/nettools/port_tools/port_scanner.py`.

The Python module performs network I/O (socket creation, `connect_ex`,
`getservbyport`, `getservbyname`) and prints diagnostics to a console.
The embedding makes every environment interaction an explicit parameter:

* the outcome of one `connect_ex` attempt is a `ConnectOutcome` value
  (either the integer code `connect_ex` returned, or the exception it
  raised);
* `socket.getservbyport` is a function `Int → Option String`
  (`none` models the `OSError` raised when no entry exists);
* `socket.getservbyname` is a function `String → Option Int`;
* console output is collected as a list of `ConsoleMsg` values;
* the life of the per-probe socket is recorded in a `SockTrace`
  (whether the probe created a socket and whether it closed it before
  returning).

`executor.map` in `scan_ports` yields results in submission order, whatever
the completion order of the worker threads, so the coordinator is a
deterministic function of the per-port connect outcomes; the
`max_workers` bound does not affect the collected results and is carried
as an inert parameter.
-/

namespace NetTools

/-- Exceptions that the body of `scan_port` can raise, one per `except`
clause of the source. -/
inductive PyExc where
  | valueError
  | gaierror
  | socketError
  | otherException
deriving DecidableEq, Repr

/-- Outcome of a single `sock.connect_ex((target, port))` call:
either it returned an integer code, or it raised an exception
(`socket.gaierror` for resolution failure, `socket.error` for other
socket failures, or any other exception). -/
inductive ConnectOutcome where
  | returns (code : Int)
  | raisesGai
  | raisesSock
  | raisesOther
deriving DecidableEq, Repr

/-- The tuple `(port, is_open, service_name)` returned by `scan_port`.
The service field is `Option String` so that the Python values `None`
and `""` stay distinguishable: the source always produces a string
(`some s`), never `None`. -/
structure ScanResult where
  port : Int
  isOpen : Bool
  service : Option String
deriving DecidableEq, Repr

/-- Whether the probe created a socket and whether it closed it before
returning. -/
structure SockTrace where
  created : Bool
  closed : Bool
deriving DecidableEq, Repr

/-- One `console.print` diagnostic, by which handler emitted it. -/
inductive ConsoleMsg where
  | hostResolutionError
  | connectError
  | invalidPortError
  | unexpectedError
deriving DecidableEq, BEq, Repr

/-- Service label computed on the open path of `scan_port`:
`socket.getservbyport(port)` if it succeeds, else the literal
`"unknown"`. -/
def lookupService (catalog : Int → Option String) (port : Int) : String :=
  match catalog port with
  | some n => n
  | none => "unknown"

/-- The `try` block of `scan_port`: validate the port (raising
`ValueError` before any socket exists), create the socket, attempt the
connection, label the service on success.  Returns the raised exception
or the result tuple, together with the socket trace.  On every
exception path the socket, once created, is NOT closed: the source only
calls `sock.close()` on the straight-line path. -/
def scan_port_body (catalog : Int → Option String) (port : Int)
    (outcome : ConnectOutcome) : Except PyExc ScanResult × SockTrace :=
  if 0 ≤ port ∧ port ≤ 65535 then
    match outcome with
    | .returns code =>
        let isOpen := code == 0
        let service : Option String :=
          if isOpen then some (lookupService catalog port) else some ""
        (.ok ⟨port, isOpen, service⟩, ⟨true, true⟩)
    | .raisesGai => (.error .gaierror, ⟨true, false⟩)
    | .raisesSock => (.error .socketError, ⟨true, false⟩)
    | .raisesOther => (.error .otherException, ⟨true, false⟩)
  else
    (.error .valueError, ⟨false, false⟩)

/-- Which diagnostic each `except` clause of `scan_port` prints. -/
def excMsg : PyExc → ConsoleMsg
  | .valueError => .invalidPortError
  | .gaierror => .hostResolutionError
  | .socketError => .connectError
  | .otherException => .unexpectedError

/-- Everything observable about one `scan_port` call: the returned
tuple, the socket trace, and the printed diagnostics. -/
structure ProbeOutput where
  result : ScanResult
  trace : SockTrace
  msgs : List ConsoleMsg
deriving DecidableEq, Repr

/-- The whole of `scan_port`: run the body; every `except` clause
prints one diagnostic and returns `(port, False, "")`.  No exception
escapes to the caller. -/
def scan_port (catalog : Int → Option String) (port : Int)
    (outcome : ConnectOutcome) : ProbeOutput :=
  match scan_port_body catalog port outcome with
  | (.ok r, tr) => ⟨r, tr, []⟩
  | (.error e, tr) => ⟨⟨port, false, some ""⟩, tr, [excMsg e]⟩

/-- The structured `port_range` argument of `scan_ports`: a 2-tuple
`(start, end)` or an explicit list. -/
inductive PortSpec where
  | range (low high : Int)
  | ports (ps : List Int)
deriving DecidableEq, Repr

/-- The Python list `range(a, b + 1)` over integers: `[a, a+1, ..., b]`,
empty when `b < a`. -/
def intRange (a b : Int) : List Int :=
  (List.range (b + 1 - a).toNat).map (fun (i : Nat) => a + (i : Int))

/-- Expansion of a `PortSpec` into `ports_to_scan`, as in `scan_ports`:
a range is swapped when `start > end` and expanded inclusively; a list
is used as given. -/
def expandSpec : PortSpec → List Int
  | .range low high =>
      if low > high then intRange high low else intRange low high
  | .ports ps => ps

/-- The validation loop of `scan_ports`: `0 <= port <= 65535`. -/
def validPort (p : Int) : Bool :=
  decide (0 ≤ p) && decide (p ≤ 65535)

/-- Observable outcome of one `scan_ports` call: the returned
`open_ports` list, the number of ports scanned (the `len(ports_to_scan)`
reported in the summary line; `0` when validation aborted the scan
before dispatch), and the printed diagnostics. -/
structure ScanRun where
  openResults : List ScanResult
  scannedCount : Nat
  msgs : List ConsoleMsg
deriving DecidableEq, Repr

/-- The coordinator `scan_ports(target, port_range, timeout, max_workers)`,
with `target` and `port_range` always supplied (the interactive prompts
are CLI glue).  `conn target port timeout` is the environment's response
to the probe of one port.  `executor.map` preserves submission order, so
the results are the per-port probes in `ports_to_scan` order;
`open_ports` keeps those with `is_open` true.  A validation failure
raises `ValueError`, caught at the bottom of the function: one
diagnostic, empty result.  `maxWorkers` bounds thread count only and
cannot affect the collected results. -/
def scan_ports (catalog : Int → Option String)
    (conn : String → Int → Int → ConnectOutcome)
    (target : String) (spec : PortSpec) (timeout : Int)
    (_maxWorkers : Nat) : ScanRun :=
  let portsToScan := expandSpec spec
  if portsToScan.all validPort then
    let outs := portsToScan.map (fun p => scan_port catalog p (conn target p timeout))
    { openResults := (outs.map (fun o => o.result)).filter (fun r => r.isOpen)
      scannedCount := portsToScan.length
      msgs := (outs.map (fun o => o.msgs)).flatten }
  else
    { openResults := [], scannedCount := 0, msgs := [.invalidPortError] }

/-- The `common_ports` literal of `scan_common_ports`. -/
def common_ports : List Int :=
  [21, 22, 23, 25, 53, 80, 110, 115, 135, 139,
   143, 194, 443, 445, 1433, 3306, 3389, 5632, 5900, 8080]

/-- The wrapper `scan_common_ports(target, timeout)`: calls `scan_ports`
on the fixed list with the default `max_workers = 100`. -/
def scan_common_ports (catalog : Int → Option String)
    (conn : String → Int → Int → ConnectOutcome)
    (target : String) (timeout : Int) : ScanRun :=
  scan_ports catalog conn target (.ports common_ports) timeout 100

/-- The `common_services` dictionary of `find_service_ports`, in
insertion order. -/
def common_services : List (String × Int) :=
  [("ftp", 21), ("ssh", 22), ("telnet", 23), ("smtp", 25),
   ("dns", 53), ("http", 80), ("pop3", 110), ("sftp", 115),
   ("imap", 143), ("https", 443), ("smb", 445), ("mysql", 3306),
   ("rdp", 3389), ("postgresql", 5432), ("vnc", 5900)]

/-- Does `needle` start `hay`?  Character-list helper for the Python
`in` operator on strings. -/
def startsWithChars : List Char → List Char → Bool
  | _, [] => true
  | [], _ :: _ => false
  | x :: xs, y :: ys => x == y && startsWithChars xs ys

/-- Does `needle` occur contiguously inside `hay`? -/
def containsChars (needle : List Char) : List Char → Bool
  | [] => startsWithChars [] needle
  | x :: xs => startsWithChars (x :: xs) needle || containsChars needle xs

/-- The Python expression `needle in hay` on strings. -/
def strContains (hay needle : String) : Bool :=
  containsChars needle.data hay.data

/-- ASCII lowering of one character, as `str.lower` acts on the ASCII
service names and queries this module handles. -/
def lowerChar (c : Char) : Char :=
  if 'A' ≤ c ∧ c ≤ 'Z' then Char.ofNat (c.toNat + 32) else c

/-- The Python expression `service_name.lower()`. -/
def strLower (s : String) : String := ⟨s.data.map lowerChar⟩

/-- The dictionary loop of `find_service_ports`: collect the port of
every entry whose name contains the lowered query or is contained in
it. -/
def staticMatches (service_lower : String) : List Int :=
  common_services.foldl
    (fun acc entry =>
      if strContains entry.1 service_lower || strContains service_lower entry.1
      then acc ++ [entry.2] else acc) []

/-- The whole of `find_service_ports(service_name)`:
lowercase the query, take the substring matches from the static
dictionary, then append the `socket.getservbyname` result if it is new;
a failed system lookup adds nothing. -/
def find_service_ports (getservbyname : String → Option Int)
    (service_name : String) : List Int :=
  let service_lower := strLower service_name
  let found := staticMatches service_lower
  match getservbyname service_lower with
  | some p => if found.contains p then found else found ++ [p]
  | none => found

/-! ### Helper lemmas -/

/-- Every path of `scan_port` echoes the `port` argument in the first
component of the returned tuple. -/
theorem scan_port_port_eq (catalog : Int → Option String) (port : Int)
    (outcome : ConnectOutcome) :
    (scan_port catalog port outcome).result.port = port := by
  unfold scan_port scan_port_body
  by_cases h : 0 ≤ port ∧ port ≤ 65535 <;> cases outcome <;> simp [h]

/-- The probe reports open exactly when the port validated and
`connect_ex` returned `0`. -/
theorem scan_port_isOpen_iff (catalog : Int → Option String) (port : Int)
    (outcome : ConnectOutcome) :
    (scan_port catalog port outcome).result.isOpen = true ↔
      ((0 ≤ port ∧ port ≤ 65535) ∧ outcome = .returns 0) := by
  unfold scan_port scan_port_body
  by_cases h : 0 ≤ port ∧ port ≤ 65535 <;> cases outcome <;> simp [h]

/-- Whenever the probe reports closed, the service field is the empty
string (never the Python `None`). -/
theorem scan_port_closed_service (catalog : Int → Option String) (port : Int)
    (outcome : ConnectOutcome)
    (h : (scan_port catalog port outcome).result.isOpen = false) :
    (scan_port catalog port outcome).result.service = some "" := by
  by_cases hv : 0 ≤ port ∧ port ≤ 65535
  · cases outcome with
    | returns code =>
        by_cases hc : code = 0
        · subst hc
          simp [scan_port, scan_port_body, hv] at h
        · simp [scan_port, scan_port_body, hv, hc]
    | raisesGai => simp [scan_port, scan_port_body, hv]
    | raisesSock => simp [scan_port, scan_port_body, hv]
    | raisesOther => simp [scan_port, scan_port_body, hv]
  · cases outcome <;> simp [scan_port, scan_port_body, hv]

/-- Whenever the probe reports open, the service field is the catalog
label, with `"unknown"` as the fallback. -/
theorem scan_port_open_service (catalog : Int → Option String) (port : Int)
    (outcome : ConnectOutcome)
    (h : (scan_port catalog port outcome).result.isOpen = true) :
    (scan_port catalog port outcome).result.service =
      some (lookupService catalog port) := by
  by_cases hv : 0 ≤ port ∧ port ≤ 65535
  · cases outcome with
    | returns code =>
        by_cases hc : code = 0
        · subst hc
          simp [scan_port, scan_port_body, hv]
        · simp [scan_port, scan_port_body, hv, hc] at h
    | raisesGai => simp [scan_port, scan_port_body, hv] at h
    | raisesSock => simp [scan_port, scan_port_body, hv] at h
    | raisesOther => simp [scan_port, scan_port_body, hv] at h
  · cases outcome <;> simp [scan_port, scan_port_body, hv] at h

/-- On a valid port whose connect attempt raises `socket.gaierror`,
`scan_port` prints one resolution diagnostic, returns a closed result,
and leaves the socket unclosed. -/
theorem scan_port_gaierror (catalog : Int → Option String) (port : Int)
    (h : 0 ≤ port ∧ port ≤ 65535) :
    scan_port catalog port .raisesGai =
      ⟨⟨port, false, some ""⟩, ⟨true, false⟩, [.hostResolutionError]⟩ := by
  unfold scan_port scan_port_body
  simp [h, excMsg]

/-- Membership in the Python integer range `[a, b]`. -/
theorem mem_intRange {a b x : Int} : x ∈ intRange a b ↔ a ≤ x ∧ x ≤ b := by
  unfold intRange
  simp only [List.mem_map, List.mem_range]
  constructor
  · rintro ⟨i, hi, rfl⟩
    omega
  · rintro ⟨h1, h2⟩
    exact ⟨(x - a).toNat, by omega, by omega⟩

/-- The expanded integer range is strictly increasing. -/
theorem pairwise_intRange (a b : Int) :
    List.Pairwise (fun x y : Int => x < y) (intRange a b) := by
  unfold intRange
  refine List.Pairwise.map _ (fun i j hij => ?_) (List.pairwise_lt_range _)
  omega

/-- Both branches of range expansion are strictly increasing. -/
theorem pairwise_expandRange (low high : Int) :
    List.Pairwise (fun x y : Int => x < y) (expandSpec (.range low high)) := by
  simp only [expandSpec]
  split <;> exact pairwise_intRange _ _

/-- Mapping the probes over a port list and projecting the port field
gives back the port list. -/
theorem map_port_of_probes (catalog : Int → Option String)
    (conn : String → Int → Int → ConnectOutcome) (target : String)
    (timeout : Int) (l : List Int) :
    (((l.map (fun p => scan_port catalog p (conn target p timeout))).map
      (fun o => o.result)).map (fun r => r.port)) = l := by
  induction l with
  | nil => rfl
  | cons x xs ih => simp only [List.map_cons, scan_port_port_eq, ih]

/-- The ports of the returned open results form a sublist of the
expanded port sequence: `executor.map` keeps submission order and the
coordinator only filters. -/
theorem scan_ports_open_sublist (catalog : Int → Option String)
    (conn : String → Int → Int → ConnectOutcome) (target : String)
    (spec : PortSpec) (timeout : Int) (mw : Nat) :
    ((scan_ports catalog conn target spec timeout mw).openResults.map
      (fun r => r.port)).Sublist (expandSpec spec) := by
  unfold scan_ports
  by_cases h : (expandSpec spec).all validPort = true
  · simp only [h, if_pos]
    have hsub :
        ((((expandSpec spec).map
            (fun p => scan_port catalog p (conn target p timeout))).map
              (fun o => o.result)).filter (fun r => r.isOpen)).Sublist
          (((expandSpec spec).map
            (fun p => scan_port catalog p (conn target p timeout))).map
              (fun o => o.result)) := List.filter_sublist _
    have hmap := hsub.map (fun r : ScanResult => r.port)
    rw [map_port_of_probes] at hmap
    exact hmap
  · simp [h]

/-- Flattening one singleton message per port yields one copy of the
message per port. -/
theorem flatten_map_singleton {α β : Type} (m : β) (l : List α) :
    ((l.map (fun _ => [m])).flatten) = List.replicate l.length m := by
  induction l with
  | nil => rfl
  | cons x xs ih => simp [List.replicate_succ, ih]

/-! ### Claim theorems -/

/-- Claim C1, counterexample: with every probe reporting open, scanning
the explicit list `[443, 80]` returns the open results in submission
order `[443, 80]`, which is not sorted ascending — the claim fails for
list-shaped port specs. -/
theorem openResults_not_sorted_for_list_spec :
    ((scan_ports (fun _ => none) (fun _ _ _ => .returns 0) "host"
      (.ports [443, 80]) 1 100).openResults.map (fun r => r.port)) = [443, 80] ∧
    ¬ List.Pairwise (fun x y : Int => x < y)
      ((scan_ports (fun _ => none) (fun _ _ _ => .returns 0) "host"
        (.ports [443, 80]) 1 100).openResults.map (fun r => r.port)) := by
  refine ⟨rfl, ?_⟩
  intro h
  rw [show ((scan_ports (fun _ => none) (fun _ _ _ => ConnectOutcome.returns 0)
      "host" (.ports [443, 80]) 1 100).openResults.map (fun r => r.port)) =
      [443, 80] from rfl] at h
  rcases List.pairwise_cons.mp h with ⟨h1, _⟩
  have h2 := h1 80 (by simp)
  omega

/-- Claim C1 (amended): the ports of the returned open results are a
sublist of the expanded input sequence — submission order, whatever the
completion order — so for a range spec they are strictly ascending with
no duplicates; an explicit list keeps its own order and multiplicity. -/
theorem openResults_submission_order (catalog : Int → Option String)
    (conn : String → Int → Int → ConnectOutcome) (target : String)
    (spec : PortSpec) (timeout : Int) (mw : Nat) (low high : Int) :
    ((scan_ports catalog conn target spec timeout mw).openResults.map
      (fun r => r.port)).Sublist (expandSpec spec) ∧
    List.Pairwise (fun x y : Int => x < y)
      ((scan_ports catalog conn target (.range low high) timeout mw).openResults.map
        (fun r => r.port)) :=
  ⟨scan_ports_open_sublist catalog conn target spec timeout mw,
   List.Pairwise.sublist
     (scan_ports_open_sublist catalog conn target (.range low high) timeout mw)
     (pairwise_expandRange low high)⟩

/-- Claim C1 witness: a concrete instance of the amended ordering
theorem. -/
theorem openResults_submission_order_witness :
    ((scan_ports (fun _ => none) (fun _ _ _ => .returns 0) "host"
      (.ports [22]) 1 100).openResults.map (fun r => r.port)).Sublist
        (expandSpec (.ports [22])) :=
  (openResults_submission_order (fun _ => none) (fun _ _ _ => .returns 0) "host"
    (.ports [22]) 1 100 80 82).1

/-- Claim C2, counterexample: when every connect attempt raises
`socket.gaierror` (unresolvable host), scanning `[80, 443]` dispatches
both probes, prints the resolution diagnostic twice — once per port, not
once — and reports two ports scanned, not zero. -/
theorem resolution_failure_reported_per_port :
    ((scan_ports (fun _ => none) (fun _ _ _ => .raisesGai) "badhost"
      (.ports [80, 443]) 1 100).msgs.count ConsoleMsg.hostResolutionError = 2) ∧
    (scan_ports (fun _ => none) (fun _ _ _ => .raisesGai) "badhost"
      (.ports [80, 443]) 1 100).scannedCount = 2 ∧
    (scan_ports (fun _ => none) (fun _ _ _ => .raisesGai) "badhost"
      (.ports [80, 443]) 1 100).openResults = [] := by
  refine ⟨by decide, rfl, rfl⟩

/-- Probes that all raise `socket.gaierror` produce one closed result
and one resolution diagnostic per port. -/
theorem gai_probe_run (catalog : Int → Option String) (l : List Int)
    (hval : ∀ p ∈ l, 0 ≤ p ∧ p ≤ 65535) :
    ((l.map (fun p => scan_port catalog p ConnectOutcome.raisesGai)).map
      (fun o => o.result)).filter (fun r => r.isOpen) = [] ∧
    ((l.map (fun p => scan_port catalog p ConnectOutcome.raisesGai)).map
      (fun o => o.msgs)).flatten =
        List.replicate l.length ConsoleMsg.hostResolutionError := by
  induction l with
  | nil => exact ⟨rfl, rfl⟩
  | cons x xs ih =>
      have hx := hval x (by simp)
      have ihr := ih (fun p hp => hval p (by simp [hp]))
      simp only [List.map_cons]
      rw [scan_port_gaierror catalog x hx]
      refine ⟨?_, ?_⟩
      · simpa using ihr.1
      · simp [ihr.2, List.replicate_succ, -List.map_map]

/-- Claim C2 (amended): when the target cannot be resolved, every
per-port probe detects the failure independently: the scan still
dispatches one probe per port, prints the resolution diagnostic once
per port, and returns no open results while counting every port as
scanned. -/
theorem resolution_failure_per_probe (catalog : Int → Option String)
    (conn : String → Int → Int → ConnectOutcome) (target : String)
    (spec : PortSpec) (timeout : Int) (mw : Nat)
    (hvalid : (expandSpec spec).all validPort = true)
    (hconn : ∀ p, conn target p timeout = .raisesGai) :
    (scan_ports catalog conn target spec timeout mw).openResults = [] ∧
    (scan_ports catalog conn target spec timeout mw).scannedCount =
      (expandSpec spec).length ∧
    (scan_ports catalog conn target spec timeout mw).msgs =
      List.replicate (expandSpec spec).length ConsoleMsg.hostResolutionError := by
  unfold scan_ports
  simp only [hvalid, if_pos]
  have hmape : (expandSpec spec).map
      (fun p => scan_port catalog p (conn target p timeout)) =
      (expandSpec spec).map (fun p => scan_port catalog p .raisesGai) :=
    List.map_congr_left (fun p _ => by rw [hconn p])
  rw [hmape]
  have hval : ∀ p ∈ expandSpec spec, 0 ≤ p ∧ p ≤ 65535 := by
    intro p hp
    have := List.all_eq_true.mp hvalid p hp
    unfold validPort at this
    simp only [Bool.and_eq_true, decide_eq_true_eq] at this
    exact this
  have hrun := gai_probe_run catalog (expandSpec spec) hval
  exact ⟨hrun.1, by trivial, hrun.2⟩

/-- Claim C2 witness: a concrete instance of the amended
per-probe-resolution-failure theorem. -/
theorem resolution_failure_per_probe_witness :
    (scan_ports (fun _ => none) (fun _ _ _ => .raisesGai) "badhost"
      (.ports [80]) 1 100).openResults = [] ∧
    (scan_ports (fun _ => none) (fun _ _ _ => .raisesGai) "badhost"
      (.ports [80]) 1 100).scannedCount = (expandSpec (.ports [80])).length ∧
    (scan_ports (fun _ => none) (fun _ _ _ => .raisesGai) "badhost"
      (.ports [80]) 1 100).msgs =
        List.replicate (expandSpec (.ports [80])).length
          ConsoleMsg.hostResolutionError :=
  resolution_failure_per_probe (fun _ => none) (fun _ _ _ => .raisesGai)
    "badhost" (.ports [80]) 1 100 (by decide) (fun _ => rfl)

/-- Claim C3, counterexample: probing port 70000 does return a closed
record without I/O, but its service field is the empty string `""`,
never the Python `None` the claim asserts. -/
theorem invalid_port_service_not_none :
    (scan_port (fun _ => none) 70000 (.returns 0)).result =
      ⟨70000, false, some ""⟩ ∧
    (scan_port (fun _ => none) 70000 (.returns 0)).result.service ≠ none := by
  exact ⟨by decide, by decide⟩

/-- Claim C3 (amended): for every port outside `[0, 65535]`,
`scan_port` fails locally with the `ValueError` diagnostic before any
socket is created (so no I/O is attempted) and returns
`(port, False, "")` — the service field is the empty string, not
`None`. -/
theorem invalid_port_local_failure (catalog : Int → Option String)
    (port : Int) (outcome : ConnectOutcome)
    (h : port < 0 ∨ 65535 < port) :
    scan_port catalog port outcome =
      ⟨⟨port, false, some ""⟩, ⟨false, false⟩, [.invalidPortError]⟩ := by
  have hv : ¬ (0 ≤ port ∧ port ≤ 65535) := by omega
  unfold scan_port scan_port_body
  cases outcome <;> simp [hv, excMsg]

/-- Claim C3 witness: the amended theorem at port 70000. -/
theorem invalid_port_local_failure_witness :
    scan_port (fun _ => none) 70000 ConnectOutcome.raisesGai =
      ⟨⟨70000, false, some ""⟩, ⟨false, false⟩, [.invalidPortError]⟩ :=
  invalid_port_local_failure (fun _ => none) 70000 .raisesGai (by decide)

/-- Claim C4: the probe reports open exactly when the port validated
and `connect_ex` returned 0 — every other connection outcome yields
`open = false` — and every exception raised inside the body is absorbed
into the closed-result tuple plus one diagnostic, so `scan_port` never
raises to its caller and never retries. -/
theorem nonsuccess_closed_and_absorbed (catalog : Int → Option String)
    (port : Int) (outcome : ConnectOutcome) :
    ((scan_port catalog port outcome).result.isOpen = true ↔
      ((0 ≤ port ∧ port ≤ 65535) ∧ outcome = .returns 0)) ∧
    (∀ e tr, scan_port_body catalog port outcome = (.error e, tr) →
      (scan_port catalog port outcome).result = ⟨port, false, some ""⟩ ∧
      (scan_port catalog port outcome).msgs = [excMsg e]) := by
  refine ⟨scan_port_isOpen_iff catalog port outcome, ?_⟩
  intro e tr hbody
  unfold scan_port
  rw [hbody]
  exact ⟨rfl, rfl⟩

/-- Claim C4 witness: a refused connection (`connect_ex` returning 111)
on a valid port reports closed. -/
theorem nonsuccess_closed_witness :
    (scan_port (fun _ => none) 80 (.returns 111)).result.isOpen = false := by
  have h := (nonsuccess_closed_and_absorbed (fun _ => none) 80 (.returns 111)).1
  rw [← Bool.not_eq_true]
  intro hopen
  exact absurd (h.mp hopen).2 (by decide)

/-- Claim C5, counterexample: the static dictionary loop matches
nothing for the query "mail" — "mail" is not a substring of any
catalog name and no catalog name is a substring of "mail" — so with
the system service database returning nothing, `find_service_ports`
returns the empty list, not a non-empty set containing 25 or 143. -/
theorem find_service_ports_mail_static_empty :
    staticMatches (strLower "mail") = [] ∧
    find_service_ports (fun _ => none) "mail" = [] := by
  exact ⟨rfl, rfl⟩

/-- Claim C5 (amended): the static substring matching contributes no
port for the query "mail"; whatever `find_service_ports("mail")`
returns comes solely from the OS service-database lookup — the empty
list when that lookup fails, or exactly the looked-up port. -/
theorem find_service_ports_mail_only_system (g : String → Option Int) :
    find_service_ports g "mail" =
      (match g "mail" with
       | some p => [p]
       | none => []) := by
  cases hg : g "mail" with
  | none =>
      have hg2 : g (strLower "mail") = none := hg
      unfold find_service_ports
      simp only [hg2]
      rfl
  | some p =>
      have hg2 : g (strLower "mail") = some p := hg
      unfold find_service_ports
      simp only [hg2]
      rfl

/-- Claim C5 witness: the amended theorem with a system database that
maps "mail" to 25 (the smtp alias present on many systems). -/
theorem find_service_ports_mail_only_system_witness :
    find_service_ports (fun _ => some 25) "mail" = [25] :=
  find_service_ports_mail_only_system (fun _ => some 25)

/-- Claim C6, code bug: when `connect_ex` raises `socket.gaierror`
(unresolvable hostname) the socket has already been created, the
handler returns without reaching `sock.close()`, and the connection
resource is not released — contradicting release on every exit path. -/
theorem gaierror_path_leaks_socket :
    (scan_port (fun _ => none) 80 .raisesGai).trace.created = true ∧
    (scan_port (fun _ => none) 80 .raisesGai).trace.closed = false := by
  exact ⟨by decide, by decide⟩

/-- Claim C7: whenever a probe reports open, its service field is a
string — the catalog name for the port when one exists, the literal
"unknown" otherwise — and it is non-empty provided the catalog never
returns an empty name; the lookup never fails the probe. -/
theorem open_service_never_empty (catalog : Int → Option String)
    (port : Int) (outcome : ConnectOutcome)
    (hcat : ∀ n, catalog port = some n → n ≠ "")
    (hopen : (scan_port catalog port outcome).result.isOpen = true) :
    ∃ s, (scan_port catalog port outcome).result.service = some s ∧ s ≠ "" ∧
      (catalog port = some s ∨ (catalog port = none ∧ s = "unknown")) := by
  have hs := scan_port_open_service catalog port outcome hopen
  cases hc : catalog port with
  | none =>
      refine ⟨"unknown", ?_, by decide, Or.inr ⟨rfl, rfl⟩⟩
      rw [hs]
      unfold lookupService
      rw [hc]
  | some n =>
      refine ⟨n, ?_, hcat n hc, Or.inl rfl⟩
      rw [hs]
      unfold lookupService
      rw [hc]

/-- Claim C7 witness: an open probe of port 80 against a catalog
labelling it "http". -/
theorem open_service_never_empty_witness :
    ∃ s, (scan_port (fun _ => some "http") 80 (.returns 0)).result.service =
        some s ∧ s ≠ "" ∧
      ((fun (_ : Int) => some "http") 80 = some s ∨
        ((fun (_ : Int) => some "http") 80 = none ∧ s = "unknown")) :=
  open_service_never_empty (fun _ => some "http") 80 (.returns 0)
    (by
      intro n h
      injection h with h
      subst h
      decide)
    (by decide)

/-- Claim C8: expanding a range spec is symmetric in its endpoints,
yields exactly the integers of the closed interval between them, in
strictly ascending order; in particular both `(80, 82)` and `(82, 80)`
expand to `[80, 81, 82]`. -/
theorem range_expansion_swap_tolerant (low high : Int) :
    expandSpec (.range low high) = expandSpec (.range high low) ∧
    (∀ x : Int, x ∈ expandSpec (.range low high) ↔
      min low high ≤ x ∧ x ≤ max low high) ∧
    List.Pairwise (fun x y : Int => x < y) (expandSpec (.range low high)) ∧
    expandSpec (.range 80 82) = [80, 81, 82] ∧
    expandSpec (.range 82 80) = [80, 81, 82] := by
  refine ⟨?_, ?_, pairwise_expandRange low high, rfl, rfl⟩
  · simp only [expandSpec]
    rcases lt_trichotomy low high with h | h | h
    · rw [if_neg (by omega), if_pos (by omega)]
    · subst h
      rfl
    · rw [if_pos (by omega), if_neg (by omega)]
  · intro x
    simp only [expandSpec]
    split
    next h =>
      rw [mem_intRange]
      omega
    next h =>
      rw [mem_intRange]
      omega

/-- Claim C8 witness: the symmetry conjunct at the endpoints 82 and
80. -/
theorem range_expansion_swap_tolerant_witness :
    expandSpec (.range 82 80) = expandSpec (.range 80 82) :=
  (range_expansion_swap_tolerant 82 80).1

/-- Claim C9: `scan_common_ports(target, timeout)` is exactly
`scan_ports` on the fixed twenty-port constant list with the default
concurrency bound of 100, for every catalog, connection environment,
target and timeout; the list is not a parameter of the wrapper. -/
theorem scan_common_ports_equiv (catalog : Int → Option String)
    (conn : String → Int → Int → ConnectOutcome) (target : String)
    (timeout : Int) :
    scan_common_ports catalog conn target timeout =
      scan_ports catalog conn target
        (.ports [21, 22, 23, 25, 53, 80, 110, 115, 135, 139,
                 143, 194, 443, 445, 1433, 3306, 3389, 5632, 5900, 8080])
        timeout 100 := rfl

/-- Claim C9 witness: the equivalence at one concrete environment. -/
theorem scan_common_ports_equiv_witness :
    scan_common_ports (fun _ => none) (fun _ _ _ => .raisesSock) "host" 1 =
      scan_ports (fun _ => none) (fun _ _ _ => .raisesSock) "host"
        (.ports [21, 22, 23, 25, 53, 80, 110, 115, 135, 139,
                 143, 194, 443, 445, 1433, 3306, 3389, 5632, 5900, 8080])
        1 100 :=
  scan_common_ports_equiv (fun _ => none) (fun _ _ _ => .raisesSock) "host" 1

/-- Claim C10: on every path of `scan_port` the first component of the
returned tuple is the port argument, and whenever the probe reports
closed the service field is the empty string `""` — a string, never the
Python `None` — so closed, invalid-port and errored probes are
indistinguishable by their service field. -/
theorem probe_tuple_invariants (catalog : Int → Option String)
    (port : Int) (outcome : ConnectOutcome) :
    (scan_port catalog port outcome).result.port = port ∧
    ((scan_port catalog port outcome).result.isOpen = false →
      (scan_port catalog port outcome).result.service = some "") :=
  ⟨scan_port_port_eq catalog port outcome,
   fun h => scan_port_closed_service catalog port outcome h⟩

/-- Claim C10 witness: a probe of the invalid port -1. -/
theorem probe_tuple_invariants_witness :
    (scan_port (fun _ => none) (-1) (.returns 0)).result.port = -1 ∧
    (scan_port (fun _ => none) (-1) (.returns 0)).result.service = some "" := by
  have h := probe_tuple_invariants (fun _ => none) (-1) (.returns 0)
  exact ⟨h.1, h.2 (by decide)⟩

end NetTools
